import Mathlib

/-!
Verification development for the recursive multi-hypothesis goal-inference
filter of the ICRIN repository.

The embedded code is `ModelWrapper::inferGoals` together with the state set
up by `ModelWrapper::init` in `src/icrin/model/src/model_wrapper.cpp`
(lines 51-56 and 99-187).

Conventions of the embedding:
* `float` values are idealized as real numbers; the source literal
  `3.14159265358979323846f` for `PI` (the nearest float to the constant pi)
  is idealized to `Real.pi`, `pow`, `sqrtf` and `exp` to `Real` operations,
  and the literals `0.01f`, `0.005f`, `1.2f`, `0.1f` to the rationals they
  denote.
* The member vectors `init_liks_` and `prev_prior_` (both resized to length
  3 by `init`) are modelled as total functions on goal indices; the
  length-3 bound and all index bounds are treated separately by the access
  model `tickAccesses` below, which records every vector subscript the tick
  performs together with the length of the vector it subscripts.
* The local `bool reset_priors` of line 103 (hardcoded `false`) is exposed
  as a parameter so that statements about both values of the flag can be
  made; `reset_priors_code` records the value the source assigns.
* IEEE NaN propagation, needed to settle the input-validation claim, is
  modelled by a second embedding of the likelihood loop over `Option ℝ`
  (`none` plays NaN, every arithmetic operation is NaN-absorbing), named
  with an `N` suffix.
-/

namespace ICRIN

noncomputable section

/-- 2-D vector, `common_msgs::Vector2` with fields `x`, `y`. -/
structure Vector2 where
  x : ℝ
  y : ℝ

/-- Per-robot filter state: the member vectors `init_liks_` and
`prev_prior_` of `ModelWrapper`, modelled as total functions on goal
indices. -/
@[ext] structure FilterState where
  init_liks : ℕ → Bool
  prev_prior : ℕ → ℝ

/-- State after `ModelWrapper::init` (lines 51-56): `init_liks_` filled with
`false`, `prev_prior_` default-constructed (zero). -/
def initState : FilterState := ⟨fun _ => false, fun _ => 0⟩

/-- Line 100: `float max_acc = 1.2f`. -/
def max_acc : ℝ := 1.2

/-- Line 101: `float ros_freq = 0.1f`. -/
def ros_freq : ℝ := 0.1

/-- Line 102, idealized to the exact constant (see the header comment). -/
def PI : ℝ := Real.pi

/-- Line 103: `bool reset_priors = false;` — the flag is a local constant,
never set from any input. -/
def reset_priors_code : Bool := false

/-- Lines 125-141: the bivariate-Gaussian likelihood computed for one goal,
with `curr_vel` the observed velocity and `sim_vel` the simulator-predicted
velocity for this goal. Each `let` mirrors one source line. -/
def likelihood (curr_vel sim_vel : Vector2) : ℝ :=
  let x := sim_vel.x
  let y := sim_vel.y
  let ux := curr_vel.x
  let uy := curr_vel.y
  let ox := (max_acc / 2) * ros_freq
  let oy := (max_acc / 2) * ros_freq
  let o2x := ox ^ 2
  let o2y := oy ^ 2
  let corr : ℝ := 0
  let corr2 := corr ^ 2
  let t1 := (x - ux) ^ 2 / o2x
  let t2 := (y - uy) ^ 2 / o2y
  let t3 := 2 * corr * (x - ux) * (y - uy) / (ox * oy)
  let p := 1 / (2 * PI * ox * oy * Real.sqrt (1 - corr2))
  let e := Real.exp (-(1 / (2 * (1 - corr2))) * (t1 + t2 - t3))
  p * e

/-- Line 149: `float uniform_prior = 1.0f / n_goals;`. -/
def uniform_prior (n_goals : ℕ) : ℝ := 1 / (n_goals : ℝ)

/-- Lines 150-158: the unnormalized posterior `g_posteriors[goal]`. -/
def g_posterior (reset_priors : Bool) (n_goals : ℕ) (curr_vel : Vector2)
    (sim_vels : ℕ → Vector2) (st : FilterState) (goal : ℕ) : ℝ :=
  if reset_priors || !st.init_liks goal then uniform_prior n_goals
  else likelihood curr_vel (sim_vels goal) * st.prev_prior goal

/-- Line 159: `posterior_norm`, the normalizer Z accumulated over goals. -/
def posterior_norm (reset_priors : Bool) (n_goals : ℕ) (curr_vel : Vector2)
    (sim_vels : ℕ → Vector2) (st : FilterState) : ℝ :=
  ∑ goal ∈ Finset.range n_goals,
    g_posterior reset_priors n_goals curr_vel sim_vels st goal

/-- Lines 167-181: the normalized posterior written to
`norm_posteriors[goal]` (uniform fallback when the normalizer is zero). -/
def norm_posterior (reset_priors : Bool) (n_goals : ℕ) (curr_vel : Vector2)
    (sim_vels : ℕ → Vector2) (st : FilterState) (goal : ℕ) : ℝ :=
  if posterior_norm reset_priors n_goals curr_vel sim_vels st = 0 then
    uniform_prior n_goals
  else
    g_posterior reset_priors n_goals curr_vel sim_vels st goal /
      posterior_norm reset_priors n_goals curr_vel sim_vels st

/-- Lines 152-154: `init_liks_[goal] = true` is executed for every
`goal < n_goals` by the end of the loop (in the else-branch the flag was
already true). -/
def next_init (n_goals : ℕ) (st : FilterState) (goal : ℕ) : Bool :=
  if goal < n_goals then true else st.init_liks goal

/-- Lines 173-178: the stored prior for the next tick. `prev_prior_[goal]`
is written only when the normalizer is nonzero and `goal < n_goals`; the
written value is the normalized posterior if it exceeds `0.01f`, else the
floor `0.005f`. -/
def next_prior (reset_priors : Bool) (n_goals : ℕ) (curr_vel : Vector2)
    (sim_vels : ℕ → Vector2) (st : FilterState) (goal : ℕ) : ℝ :=
  if goal < n_goals ∧
      posterior_norm reset_priors n_goals curr_vel sim_vels st ≠ 0 then
    (if norm_posterior reset_priors n_goals curr_vel sim_vels st goal > 0.01
     then norm_posterior reset_priors n_goals curr_vel sim_vels st goal
     else 0.005)
  else st.prev_prior goal

/-- One iteration of the per-agent loop (lines 109-185): returns the
`norm_posteriors` vector (as its indexing function) and the updated member
state. `sim_vels` is the slice of `sequence_sim_vels` for this agent. -/
def agentUpdate (reset_priors : Bool) (n_goals : ℕ) (curr_vel : Vector2)
    (sim_vels : ℕ → Vector2) (st : FilterState) : (ℕ → ℝ) × FilterState :=
  (norm_posterior reset_priors n_goals curr_vel sim_vels st,
   ⟨next_init n_goals st,
    next_prior reset_priors n_goals curr_vel sim_vels st⟩)

/-- The agent loop of `inferGoals` over a list of agent indices, threading
the shared member state from one agent to the next exactly as the source
does (both `init_liks_` and `prev_prior_` are members, not per-agent). -/
def inferGoalsLoop (reset_priors : Bool) (n_goals : ℕ) (curr_vel : Vector2)
    (sim_vels : ℕ → Vector2) :
    List ℕ → FilterState → List (ℕ → ℝ) × FilterState
  | [], st => ([], st)
  | agent :: rest, st =>
    let r := agentUpdate reset_priors n_goals curr_vel
      (fun goal => sim_vels (agent * n_goals + goal)) st
    let rr := inferGoalsLoop reset_priors n_goals curr_vel sim_vels rest r.2
    (r.1 :: rr.1, rr.2)

/-- One full `inferGoals` tick (lines 99-187): `curr_vel` is the robot
velocity of lines 105-107 (used for every agent), `sim_vels` the flattened
`sequence_sim_vels` matrix, agents are processed in positional order, each
with its `n_goals`-slice starting at `agent * n_goals` (lines 113-117). -/
def inferGoals (reset_priors : Bool) (n_goals numAgents : ℕ)
    (curr_vel : Vector2) (sim_vels : ℕ → Vector2) (st : FilterState) :
    List (ℕ → ℝ) × FilterState :=
  inferGoalsLoop reset_priors n_goals curr_vel sim_vels
    (List.range numAgents) st

/-! Concrete inputs used by witnesses and counterexamples. -/

/-- Zero observed velocity. -/
def cv0 : Vector2 := ⟨0, 0⟩

/-- Predicted velocities all zero. -/
def sims0 : ℕ → Vector2 := fun _ => ⟨0, 0⟩

/-- A fully-initialized state with all stored priors 1. -/
def stInit1 : FilterState := ⟨fun _ => true, fun _ => 1⟩

/-- A fully-initialized state with all stored priors 0 (degenerate Z). -/
def stZ : FilterState := ⟨fun _ => true, fun _ => 0⟩

/-- Predicted matrix agreeing with `sims0` on index 0 only. -/
def simsW : ℕ → Vector2 := fun g => if g = 0 then ⟨0, 0⟩ else ⟨9, 9⟩

/-- Observed velocity of the concrete scenario in the spec (section 8). -/
def obs6 : Vector2 := ⟨1, 0⟩

/-- Predicted velocities of the concrete scenario:
`[(1,0), (0,1), (-1,0)]`. -/
def sims6 : ℕ → Vector2 :=
  fun g => if g = 0 then ⟨1, 0⟩ else if g = 1 then ⟨0, 1⟩ else ⟨-1, 0⟩

/-- State stored after the first tick of the concrete scenario. -/
def st6 : FilterState := (inferGoals false 3 1 obs6 sims6 initState).2

/-- Fully-initialized two-goal state with priors 1/2, for the cross-agent
interference analysis. -/
def st7 : FilterState := ⟨fun _ => true, fun _ => 1 / 2⟩

/-- Predicted matrix for two agents and two goals, all predictions zero. -/
def simsA : ℕ → Vector2 := fun _ => ⟨0, 0⟩

/-- Same matrix except agent 0 hypothesis 1 predicts (1,0); the slice of
agent 1 (indices 2 and 3) is unchanged. -/
def simsB : ℕ → Vector2 := fun i => if i = 1 then ⟨1, 0⟩ else ⟨0, 0⟩

/-- State stored after a first tick with a single goal hypothesis
(`n_goals = 1`), used to examine what happens when the hypothesis count
changes to 2 on the following tick. -/
def st8 : FilterState := (inferGoals false 1 1 cv0 sims0 initState).2

/-! NaN-propagation model of the likelihood loop (lines 119-144): `Option ℝ`
with `none` playing NaN; every IEEE operation on a NaN operand yields NaN.
Division is only applied to nonzero finite denominators here, so mapping
`some a / some b` to `some (a / b)` is faithful for these expressions. -/

def nadd : Option ℝ → Option ℝ → Option ℝ
  | some a, some b => some (a + b)
  | _, _ => none

def nsub : Option ℝ → Option ℝ → Option ℝ
  | some a, some b => some (a - b)
  | _, _ => none

def nmul : Option ℝ → Option ℝ → Option ℝ
  | some a, some b => some (a * b)
  | _, _ => none

def ndiv : Option ℝ → Option ℝ → Option ℝ
  | some a, some b => some (a / b)
  | _, _ => none

/-- `pow(v, 2.0f)`. -/
def nsq : Option ℝ → Option ℝ := Option.map (fun a => a ^ 2)

def nneg : Option ℝ → Option ℝ := Option.map (fun a => -a)

def nexp : Option ℝ → Option ℝ := Option.map Real.exp

def nsqrt : Option ℝ → Option ℝ := Option.map Real.sqrt

/-- Lines 126-141 over the NaN model: the likelihood for one goal, with
`ux uy` the observed components and `x y` the predicted components. -/
def likelihoodN (ux uy x y : Option ℝ) : Option ℝ :=
  let ox : Option ℝ := some ((max_acc / 2) * ros_freq)
  let oy : Option ℝ := some ((max_acc / 2) * ros_freq)
  let o2x := nsq ox
  let o2y := nsq oy
  let corr : Option ℝ := some 0
  let corr2 := nsq corr
  let t1 := ndiv (nsq (nsub x ux)) o2x
  let t2 := ndiv (nsq (nsub y uy)) o2y
  let t3 := ndiv (nmul (nmul (nmul (some 2) corr) (nsub x ux)) (nsub y uy))
    (nmul ox oy)
  let p := ndiv (some 1)
    (nmul (nmul (nmul (nmul (some 2) (some PI)) ox) oy)
      (nsqrt (nsub (some 1) corr2)))
  let e := nexp (nmul (nneg (ndiv (some 1) (nmul (some 2)
    (nsub (some 1) corr2)))) (nsub (nadd t1 t2) t3))
  nmul p e

/-- Lines 150-159 over the NaN model, initialized case: the accumulation
`posterior_norm += g_likelihoods[goal] * prev_prior_[goal]` in goal order,
starting from `0.0f`. -/
def posterior_normN (n_goals : ℕ) (liks priors : ℕ → Option ℝ) : Option ℝ :=
  (List.range n_goals).foldl
    (fun acc goal => nadd acc (nmul (liks goal) (priors goal))) (some 0)

/-! Access model for one `inferGoals` tick: every vector subscript the tick
performs, as pairs (index, length of the subscripted vector). `init_liks_`
and `prev_prior_` have length 3 (`init`, lines 54-55); the per-tick local
vectors have length `n_goals` (lines 111, 148, 166); the flattened
`sequence_sim_vels` matrix has length `numAgents * n_goals` (its documented
invariant). -/

/-- Vector accesses of one iteration of the agent loop (lines 109-185). -/
def agentAccesses (numAgents n_goals agent : ℕ) : List (ℕ × ℕ) :=
  ((List.range n_goals).map
    (fun goal => (agent * n_goals + goal, numAgents * n_goals)))
  ++ ((List.range n_goals).flatMap (fun goal =>
    [(goal, n_goals),
     (goal, n_goals)]))
  ++ ((List.range n_goals).flatMap (fun goal =>
    [(goal, 3),
     (goal, 3),
     (goal, n_goals)]))
  ++ ((List.range n_goals).flatMap (fun goal =>
    [(goal, n_goals),
     (goal, 3),
     (goal, n_goals)]))
  ++ [(0, n_goals), (1, n_goals), (2, n_goals)]

/-- All vector accesses of one tick (the agent loop of line 109). -/
def tickAccesses (numAgents n_goals : ℕ) : List (ℕ × ℕ) :=
  (List.range numAgents).flatMap (agentAccesses numAgents n_goals)

/-! # Theorems -/

@[simp] theorem Vector2_x (a b : ℝ) : (Vector2.mk a b).x = a := rfl

@[simp] theorem Vector2_y (a b : ℝ) : (Vector2.mk a b).y = b := rfl

/-! Basic facts about the likelihood. -/

theorem likelihood_eval (cv sv : Vector2) :
    likelihood cv sv =
      1 / (2 * Real.pi * (0.06 : ℝ) ^ 2) *
        Real.exp (-(((sv.x - cv.x) ^ 2 + (sv.y - cv.y) ^ 2) /
          (2 * (0.06 : ℝ) ^ 2))) := by
  simp only [likelihood, PI]
  norm_num [max_acc, ros_freq, Real.sqrt_one]
  ring_nf

theorem likelihood_pos (cv sv : Vector2) : 0 < likelihood cv sv := by
  rw [likelihood_eval]
  positivity

/-! Unfolding helpers for the update. -/

theorem agentUpdate_fst (r : Bool) (n : ℕ) (cv : Vector2)
    (s : ℕ → Vector2) (st : FilterState) :
    (agentUpdate r n cv s st).1 = norm_posterior r n cv s st := rfl

theorem agentUpdate_init (r : Bool) (n : ℕ) (cv : Vector2)
    (s : ℕ → Vector2) (st : FilterState) :
    (agentUpdate r n cv s st).2.init_liks = next_init n st := rfl

theorem agentUpdate_prior (r : Bool) (n : ℕ) (cv : Vector2)
    (s : ℕ → Vector2) (st : FilterState) :
    (agentUpdate r n cv s st).2.prev_prior = next_prior r n cv s st := rfl

theorem norm_posterior_of_ne {r : Bool} {n : ℕ} {cv : Vector2}
    {s : ℕ → Vector2} {st : FilterState}
    (hZ : posterior_norm r n cv s st ≠ 0) (g : ℕ) :
    norm_posterior r n cv s st g =
      g_posterior r n cv s st g / posterior_norm r n cv s st := by
  simp [norm_posterior, hZ]

theorem norm_posterior_of_eq {r : Bool} {n : ℕ} {cv : Vector2}
    {s : ℕ → Vector2} {st : FilterState}
    (hZ : posterior_norm r n cv s st = 0) (g : ℕ) :
    norm_posterior r n cv s st g = uniform_prior n := by
  simp [norm_posterior, hZ]

theorem next_prior_of_ne {r : Bool} {n : ℕ} {cv : Vector2}
    {s : ℕ → Vector2} {st : FilterState}
    (hZ : posterior_norm r n cv s st ≠ 0) {g : ℕ} (hg : g < n) :
    next_prior r n cv s st g =
      if norm_posterior r n cv s st g > 0.01
      then norm_posterior r n cv s st g else 0.005 := by
  simp [next_prior, hg, hZ]

theorem next_prior_of_eq {r : Bool} {n : ℕ} {cv : Vector2}
    {s : ℕ → Vector2} {st : FilterState}
    (hZ : posterior_norm r n cv s st = 0) (g : ℕ) :
    next_prior r n cv s st g = st.prev_prior g := by
  simp [next_prior, hZ]

theorem g_posterior_of_init {st : FilterState} {g : ℕ}
    (hg : st.init_liks g = true) (n : ℕ) (cv : Vector2) (s : ℕ → Vector2) :
    g_posterior false n cv s st g =
      likelihood cv (s g) * st.prev_prior g := by
  simp [g_posterior, hg]

theorem g_posterior_of_uninit {st : FilterState} {g : ℕ}
    (hg : st.init_liks g = false) (n : ℕ) (cv : Vector2) (s : ℕ → Vector2) :
    g_posterior false n cv s st g = uniform_prior n := by
  simp [g_posterior, hg]

/-! Numeric helpers. -/

theorem exp_lt_hundredth {t : ℝ} (ht : t ≤ -5) : Real.exp t < 0.01 := by
  have h1 : Real.exp t ≤ Real.exp (-5) := Real.exp_le_exp.mpr ht
  have h2 : Real.exp (-5 : ℝ) = (Real.exp 5)⁻¹ := Real.exp_neg 5
  have h3 : (100 : ℝ) < Real.exp 5 := by
    have he : (2.7182818283 : ℝ) < Real.exp 1 := Real.exp_one_gt_d9
    have h4 : ((2.7182818283 : ℝ)) ^ (5 : ℕ) < (Real.exp 1) ^ (5 : ℕ) := by
      gcongr
    have h5 : (Real.exp 1) ^ (5 : ℕ) = Real.exp 5 := by
      rw [← Real.exp_nat_mul]
      norm_num
    nlinarith [h4, h5]
  have h6 : (Real.exp 5)⁻¹ < 0.01 := by
    rw [show (0.01 : ℝ) = (100 : ℝ)⁻¹ by norm_num]
    exact inv_strictAnti₀ (by norm_num) h3
  calc Real.exp t ≤ (Real.exp 5)⁻¹ := h2 ▸ h1
    _ < 0.01 := h6

theorem likelihood_self : likelihood cv0 (⟨0, 0⟩ : Vector2) =
    1 / (2 * Real.pi * (0.06 : ℝ) ^ 2) := by
  rw [likelihood_eval]
  norm_num [cv0]

/-! # Claim theorems -/

/-- Claim C1: in a tick where the belief is already initialized for every
hypothesis, no reset is requested, and the normalizer
Z = Σ_g L[g]·prior[g] is nonzero, the returned belief is
belief[g] = L[g]·prior[g] / Z, with prior the stored posterior carried over
from the previous tick (`prev_prior_`) — a recursive Bayes update. -/
theorem recursive_bayes_update (n : ℕ) (cv : Vector2) (s : ℕ → Vector2)
    (st : FilterState) (hinit : ∀ g < n, st.init_liks g = true)
    (hZ : ∑ j ∈ Finset.range n, likelihood cv (s j) * st.prev_prior j ≠ 0) :
    ∀ g < n, (agentUpdate false n cv s st).1 g =
      likelihood cv (s g) * st.prev_prior g /
        ∑ j ∈ Finset.range n, likelihood cv (s j) * st.prev_prior j := by
  have hpn : posterior_norm false n cv s st =
      ∑ j ∈ Finset.range n, likelihood cv (s j) * st.prev_prior j :=
    Finset.sum_congr rfl
      (fun g hg => g_posterior_of_init (hinit g (Finset.mem_range.mp hg))
        n cv s)
  intro g hg
  rw [agentUpdate_fst, norm_posterior_of_ne (by rw [hpn]; exact hZ) g, hpn,
    g_posterior_of_init (hinit g hg) n cv s]

/-- Witness for C1 at a concrete input: one hypothesis, prior 1, observed
and predicted velocity both zero. -/
theorem recursive_bayes_update_witness :
    (agentUpdate false 1 cv0 sims0 stInit1).1 0 =
      likelihood cv0 (sims0 0) * stInit1.prev_prior 0 /
        ∑ j ∈ Finset.range 1,
          likelihood cv0 (sims0 j) * stInit1.prev_prior j :=
  recursive_bayes_update 1 cv0 sims0 stInit1 (fun _ _ => rfl)
    (by
      rw [Finset.sum_range_one]
      show likelihood cv0 (sims0 0) * 1 ≠ 0
      rw [mul_one]
      exact (likelihood_pos cv0 (sims0 0)).ne')
    0 (by norm_num)

/-- Claim C2: the likelihood is the zero-correlation bivariate Gaussian
density `1/(2π σ²) · exp(−((obs.x − pred.x)² + (obs.y − pred.y)²)/(2σ²))`
with the single per-axis standard deviation
σ = (maxAcceleration / 2) × controlPeriod = 0.06. (Finiteness of the
inputs is automatic in this real-valued embedding.) -/
theorem likelihood_gaussian_form :
    ((max_acc / 2) * ros_freq = 0.06) ∧
    ∀ cv sv : Vector2,
      likelihood cv sv =
        1 / (2 * Real.pi * ((max_acc / 2) * ros_freq) ^ 2) *
          Real.exp (-(((cv.x - sv.x) ^ 2 + (cv.y - sv.y) ^ 2) /
            (2 * ((max_acc / 2) * ros_freq) ^ 2))) := by
  have hs : ((max_acc / 2) * ros_freq : ℝ) = 0.06 := by
    norm_num [max_acc, ros_freq]
  refine ⟨hs, fun cv sv => ?_⟩
  rw [likelihood_eval, hs,
    show (cv.x - sv.x) ^ 2 = (sv.x - cv.x) ^ 2 by ring,
    show (cv.y - sv.y) ^ 2 = (sv.y - cv.y) ^ 2 by ring]

/-- Claim C3: for every tick with N ≥ 1 and a nonnegative stored prior (the
data-model invariant), the returned belief sums to exactly 1 — hence also
within any floating tolerance — and every component is nonnegative, in
both the degenerate and normal branches. -/
theorem belief_normalized_nonneg (r : Bool) (n : ℕ) (cv : Vector2)
    (s : ℕ → Vector2) (st : FilterState) (hn : 1 ≤ n)
    (hp : ∀ g, 0 ≤ st.prev_prior g) :
    (∑ g ∈ Finset.range n, (agentUpdate r n cv s st).1 g) = 1 ∧
    ∀ g < n, 0 ≤ (agentUpdate r n cv s st).1 g := by
  have hnR : (0 : ℝ) < (n : ℝ) := by exact_mod_cast hn
  have hPnn : ∀ g, 0 ≤ g_posterior r n cv s st g := by
    intro g
    unfold g_posterior
    split
    · unfold uniform_prior
      positivity
    · exact mul_nonneg (likelihood_pos cv (s g)).le (hp g)
  by_cases hZ : posterior_norm r n cv s st = 0
  · constructor
    · simp only [agentUpdate_fst, norm_posterior_of_eq hZ]
      rw [Finset.sum_const, Finset.card_range, nsmul_eq_mul, uniform_prior]
      field_simp
    · intro g _
      rw [agentUpdate_fst, norm_posterior_of_eq hZ g, uniform_prior]
      positivity
  · have hZpos : 0 < posterior_norm r n cv s st :=
      lt_of_le_of_ne (Finset.sum_nonneg fun g _ => hPnn g) (Ne.symm hZ)
    constructor
    · simp only [agentUpdate_fst, norm_posterior_of_ne hZ]
      rw [← Finset.sum_div]
      exact div_self hZ
    · intro g _
      rw [agentUpdate_fst, norm_posterior_of_ne hZ g]
      exact div_nonneg (hPnn g) hZpos.le

/-- Witness for C3 at a concrete input: first tick, one hypothesis. -/
theorem belief_normalized_nonneg_witness :
    (∑ g ∈ Finset.range 1, (agentUpdate false 1 cv0 sims0 initState).1 g)
        = 1 ∧
    0 ≤ (agentUpdate false 1 cv0 sims0 initState).1 0 :=
  ⟨(belief_normalized_nonneg false 1 cv0 sims0 initState (by norm_num)
      (fun _ => le_refl 0)).1,
   (belief_normalized_nonneg false 1 cv0 sims0 initState (by norm_num)
      (fun _ => le_refl 0)).2 0 (by norm_num)⟩

/-- Claim C4: in a degenerate tick (Z = 0) the returned belief is exactly
uniform 1/N for every hypothesis, and the stored prior `prev_prior_` is
left untouched, so a later non-degenerate tick resumes from the
pre-degenerate prior. -/
theorem degenerate_uniform_prior_preserved (r : Bool) (n : ℕ)
    (cv : Vector2) (s : ℕ → Vector2) (st : FilterState)
    (hZ : posterior_norm r n cv s st = 0) :
    (∀ g, (agentUpdate r n cv s st).1 g = 1 / (n : ℝ)) ∧
    (agentUpdate r n cv s st).2.prev_prior = st.prev_prior := by
  constructor
  · intro g
    rw [agentUpdate_fst, norm_posterior_of_eq hZ g, uniform_prior]
  · funext g
    rw [agentUpdate_prior, next_prior_of_eq hZ g]

/-- Witness for C4 at a concrete input: all stored priors zero makes every
unnormalized posterior zero, hence Z = 0. -/
theorem degenerate_uniform_prior_preserved_witness :
    (agentUpdate false 1 cv0 sims0 stZ).1 0 = 1 / ((1 : ℕ) : ℝ) ∧
    (agentUpdate false 1 cv0 sims0 stZ).2.prev_prior = stZ.prev_prior := by
  have hZ : posterior_norm false 1 cv0 sims0 stZ = 0 := by
    rw [posterior_norm, Finset.sum_range_one,
      g_posterior_of_init rfl 1 cv0 sims0]
    show likelihood cv0 (sims0 0) * 0 = 0
    rw [mul_zero]
  exact ⟨(degenerate_uniform_prior_preserved false 1 cv0 sims0 stZ hZ).1 0,
    (degenerate_uniform_prior_preserved false 1 cv0 sims0 stZ hZ).2⟩

/-- Claim C5: in a non-degenerate tick (Z ≠ 0), for every hypothesis g the
value returned to the caller is the true normalized posterior P[g]/Z
(never clamped), while the stored next-tick prior is that posterior when
it exceeds 0.01 and the floor 0.005 otherwise. -/
theorem clamped_prior_unclamped_output (r : Bool) (n : ℕ) (cv : Vector2)
    (s : ℕ → Vector2) (st : FilterState)
    (hZ : posterior_norm r n cv s st ≠ 0) :
    ∀ g < n,
      (agentUpdate r n cv s st).1 g =
        g_posterior r n cv s st g / posterior_norm r n cv s st ∧
      (agentUpdate r n cv s st).2.prev_prior g =
        (if g_posterior r n cv s st g / posterior_norm r n cv s st > 0.01
         then g_posterior r n cv s st g / posterior_norm r n cv s st
         else 0.005) := by
  intro g hg
  refine ⟨by rw [agentUpdate_fst, norm_posterior_of_ne hZ g], ?_⟩
  rw [agentUpdate_prior, next_prior_of_ne hZ hg, norm_posterior_of_ne hZ g]

/-- Witness for C5 at a concrete input: one hypothesis, prior 1. -/
theorem clamped_prior_unclamped_output_witness :
    (agentUpdate false 1 cv0 sims0 stInit1).1 0 =
      g_posterior false 1 cv0 sims0 stInit1 0 /
        posterior_norm false 1 cv0 sims0 stInit1 ∧
    (agentUpdate false 1 cv0 sims0 stInit1).2.prev_prior 0 =
      (if g_posterior false 1 cv0 sims0 stInit1 0 /
            posterior_norm false 1 cv0 sims0 stInit1 > 0.01
       then g_posterior false 1 cv0 sims0 stInit1 0 /
            posterior_norm false 1 cv0 sims0 stInit1
       else 0.005) :=
  clamped_prior_unclamped_output false 1 cv0 sims0 stInit1
    (by
      rw [posterior_norm, Finset.sum_range_one,
        g_posterior_of_init rfl 1 cv0 sims0]
      show likelihood cv0 (sims0 0) * 1 ≠ 0
      rw [mul_one]
      exact (likelihood_pos cv0 (sims0 0)).ne')
    0 (by norm_num)

/-! Evaluation of a tick with one or two agents. -/

theorem inferGoals_one (r : Bool) (n : ℕ) (cv : Vector2) (s : ℕ → Vector2)
    (st : FilterState) :
    inferGoals r n 1 cv s st =
      ([(agentUpdate r n cv (fun g => s (0 * n + g)) st).1],
       (agentUpdate r n cv (fun g => s (0 * n + g)) st).2) := rfl

theorem inferGoals_two (r : Bool) (n : ℕ) (cv : Vector2) (s : ℕ → Vector2)
    (st : FilterState) :
    inferGoals r n 2 cv s st =
      ([(agentUpdate r n cv (fun g => s (0 * n + g)) st).1,
        (agentUpdate r n cv (fun g => s (1 * n + g))
          (agentUpdate r n cv (fun g => s (0 * n + g)) st).2).1],
       (agentUpdate r n cv (fun g => s (1 * n + g))
          (agentUpdate r n cv (fun g => s (0 * n + g)) st).2).2) := rfl

/-! Evaluation of the concrete first-tick scenario (spec section 8):
N = 3, observed (1,0), predicted [(1,0), (0,1), (-1,0)], fresh state. -/

theorem c6_hsl : (fun g => sims6 (0 * 3 + g)) = sims6 := by
  funext g
  simp

theorem c6_Z1 : posterior_norm false 3 obs6 sims6 initState = 1 := by
  rw [posterior_norm, Finset.sum_range_succ, Finset.sum_range_succ,
    Finset.sum_range_one,
    g_posterior_of_uninit (show initState.init_liks 0 = false from rfl)
      3 obs6 sims6,
    g_posterior_of_uninit (show initState.init_liks 1 = false from rfl)
      3 obs6 sims6,
    g_posterior_of_uninit (show initState.init_liks 2 = false from rfl)
      3 obs6 sims6,
    uniform_prior]
  norm_num

theorem c6_st6_init {g : ℕ} (hg : g < 3) : st6.init_liks g = true := by
  rw [st6, inferGoals_one]
  show next_init 3 initState g = true
  simp [next_init, hg]

theorem c6_st6_prior {g : ℕ} (hg : g < 3) : st6.prev_prior g = 1 / 3 := by
  rw [st6, inferGoals_one]
  show next_prior false 3 obs6 (fun j => sims6 (0 * 3 + j)) initState g
    = 1 / 3
  rw [show (fun j => sims6 (0 * 3 + j)) = sims6 from c6_hsl]
  rw [next_prior_of_ne (by rw [c6_Z1]; norm_num) hg,
    norm_posterior_of_ne (by rw [c6_Z1]; norm_num) g, c6_Z1,
    g_posterior_of_uninit (show initState.init_liks g = false from rfl)
      3 obs6 sims6,
    uniform_prior]
  split_ifs with h
  · norm_num
  · exfalso
    apply h
    norm_num

theorem c6_L0 : likelihood obs6 (sims6 0) =
    1 / (2 * Real.pi * (0.06 : ℝ) ^ 2) := by
  rw [show sims6 0 = (⟨1, 0⟩ : Vector2) from rfl, likelihood_eval]
  norm_num [obs6]

theorem c6_L1 : likelihood obs6 (sims6 1) =
    1 / (2 * Real.pi * (0.06 : ℝ) ^ 2) * Real.exp (-(2500 / 9 : ℝ)) := by
  rw [show sims6 1 = (⟨0, 1⟩ : Vector2) from rfl, likelihood_eval]
  norm_num [obs6]

theorem c6_L2 : likelihood obs6 (sims6 2) =
    1 / (2 * Real.pi * (0.06 : ℝ) ^ 2) * Real.exp (-(5000 / 9 : ℝ)) := by
  rw [show sims6 2 = (⟨-1, 0⟩ : Vector2) from rfl, likelihood_eval]
  norm_num [obs6]

theorem c6_Z2 : posterior_norm false 3 obs6 sims6 st6 =
    1 / (2 * Real.pi * (0.06 : ℝ) ^ 2) * (1 / 3) +
    1 / (2 * Real.pi * (0.06 : ℝ) ^ 2) * Real.exp (-(2500 / 9 : ℝ)) *
      (1 / 3) +
    1 / (2 * Real.pi * (0.06 : ℝ) ^ 2) * Real.exp (-(5000 / 9 : ℝ)) *
      (1 / 3) := by
  have i0 : st6.init_liks 0 = true := c6_st6_init (by norm_num)
  have i1 : st6.init_liks 1 = true := c6_st6_init (by norm_num)
  have i2 : st6.init_liks 2 = true := c6_st6_init (by norm_num)
  rw [posterior_norm, Finset.sum_range_succ, Finset.sum_range_succ,
    Finset.sum_range_one,
    g_posterior_of_init i0 3 obs6 sims6, g_posterior_of_init i1 3 obs6 sims6,
    g_posterior_of_init i2 3 obs6 sims6,
    c6_st6_prior (show 0 < 3 by norm_num),
    c6_st6_prior (show 1 < 3 by norm_num),
    c6_st6_prior (show 2 < 3 by norm_num), c6_L0, c6_L1, c6_L2]

/-- Counterexample to claim C6: on the very first tick of the concrete
scenario (N = 3, σ = 0.06, predicted [(1,0),(0,1),(−1,0)], observed (1,0),
fresh state), the code ignores the likelihoods — the uninitialized branch
of line 152 sets the unnormalized posterior to the uniform prior itself —
so the returned belief[0] is exactly 1/3, not greater than 0.98. -/
theorem first_tick_uniform_counterexample :
    ((inferGoals false 3 1 obs6 sims6 initState).1.getD 0 (fun _ => 0)) 0
        = 1 / 3 ∧
    ¬ (((inferGoals false 3 1 obs6 sims6 initState).1.getD 0 (fun _ => 0)) 0
        > 0.98) := by
  have hbel :
      ((inferGoals false 3 1 obs6 sims6 initState).1.getD 0 (fun _ => 0)) 0
        = 1 / 3 := by
    rw [inferGoals_one]
    show norm_posterior false 3 obs6 (fun g => sims6 (0 * 3 + g))
      initState 0 = 1 / 3
    rw [c6_hsl, norm_posterior_of_ne (by rw [c6_Z1]; norm_num) 0, c6_Z1,
      g_posterior_of_uninit (show initState.init_liks 0 = false from rfl)
        3 obs6 sims6,
      uniform_prior]
    norm_num
  exact ⟨hbel, by rw [hbel]; norm_num⟩

/-- Amended claim C6: in the concrete scenario the first tick returns the
exactly uniform belief (see `first_tick_uniform_counterexample`); the
claimed belief[0] > 0.98 appears one tick later, when the stored uniform
prior 1/3 is multiplied by the likelihoods. -/
theorem second_tick_confident :
    ((inferGoals false 3 1 obs6 sims6 st6).1.getD 0 (fun _ => 0)) 0
      > 0.98 := by
  have hK : (0 : ℝ) < 1 / (2 * Real.pi * (0.06 : ℝ) ^ 2) := by positivity
  have hE1 : Real.exp (-(2500 / 9 : ℝ)) < 0.01 :=
    exp_lt_hundredth (by norm_num)
  have hE2 : Real.exp (-(5000 / 9 : ℝ)) < 0.01 :=
    exp_lt_hundredth (by norm_num)
  have hE1p : 0 < Real.exp (-(2500 / 9 : ℝ)) := Real.exp_pos _
  have hE2p : 0 < Real.exp (-(5000 / 9 : ℝ)) := Real.exp_pos _
  have hZpos : 0 < posterior_norm false 3 obs6 sims6 st6 := by
    rw [c6_Z2]
    positivity
  rw [inferGoals_one]
  show norm_posterior false 3 obs6 (fun g => sims6 (0 * 3 + g)) st6 0 > 0.98
  rw [c6_hsl, norm_posterior_of_ne hZpos.ne' 0,
    g_posterior_of_init (c6_st6_init (show 0 < 3 by norm_num)) 3 obs6 sims6,
    c6_st6_prior (show 0 < 3 by norm_num), c6_L0, c6_Z2]
  rw [gt_iff_lt, lt_div_iff₀ (by positivity)]
  nlinarith [mul_lt_mul_of_pos_left hE1 hK, mul_lt_mul_of_pos_left hE2 hK,
    hK, hE1p, hE2p]

/-! Evaluation of a hypothesis-count change: a first tick with N = 1
followed by a tick with N = 2 on the stored state `st8`. -/

theorem c8_hsl1 : (fun g => sims0 (0 * 1 + g)) = sims0 := by
  funext g
  rfl

theorem c8_hsl2 : (fun g => sims0 (0 * 2 + g)) = sims0 := by
  funext g
  rfl

theorem likelihood_sims0 (g : ℕ) : likelihood cv0 (sims0 g) =
    1 / (2 * Real.pi * (0.06 : ℝ) ^ 2) := by
  rw [likelihood_eval]
  norm_num [cv0, sims0]

theorem c8_Z1 : posterior_norm false 1 cv0 sims0 initState = 1 := by
  rw [posterior_norm, Finset.sum_range_one,
    g_posterior_of_uninit (show initState.init_liks 0 = false from rfl)
      1 cv0 sims0,
    uniform_prior]
  norm_num

theorem c8_st8_init0 : st8.init_liks 0 = true := by
  rw [st8, inferGoals_one]
  show next_init 1 initState 0 = true
  simp [next_init]

theorem c8_st8_init1 : st8.init_liks 1 = false := by
  rw [st8, inferGoals_one]
  show next_init 1 initState 1 = false
  simp [next_init, initState]

theorem c8_st8_prior0 : st8.prev_prior 0 = 1 := by
  rw [st8, inferGoals_one]
  show next_prior false 1 cv0 (fun g => sims0 (0 * 1 + g)) initState 0 = 1
  rw [c8_hsl1, next_prior_of_ne (by rw [c8_Z1]; norm_num) (by norm_num),
    norm_posterior_of_ne (by rw [c8_Z1]; norm_num) 0, c8_Z1,
    g_posterior_of_uninit (show initState.init_liks 0 = false from rfl)
      1 cv0 sims0,
    uniform_prior]
  split_ifs with h
  · norm_num
  · exfalso
    apply h
    norm_num

theorem c8_Z2 : posterior_norm false 2 cv0 sims0 st8 =
    1 / (2 * Real.pi * (0.06 : ℝ) ^ 2) + 1 / 2 := by
  rw [posterior_norm, Finset.sum_range_succ, Finset.sum_range_one,
    g_posterior_of_init c8_st8_init0 2 cv0 sims0,
    g_posterior_of_uninit c8_st8_init1 2 cv0 sims0,
    c8_st8_prior0, likelihood_sims0 0, mul_one, uniform_prior]
  norm_num

/-- Counterexample to claim C8: the code contains no reset on a hypothesis
count change. After a tick with N = 1 (storing prior 1 for hypothesis 0),
a tick with N = 2 does not discard the stored prior: hypothesis 0 keeps
prior 1 while hypothesis 1 takes the uninitialized uniform branch, and the
returned belief[0] is K/(K + 1/2) with K = 1/(2π·0.06²) ≈ 44 — not the
uniform 1/2 the claim requires. -/
theorem n_change_no_reset_counterexample :
    ((inferGoals false 2 1 cv0 sims0 st8).1.getD 0 (fun _ => 0)) 0
      ≠ 1 / 2 := by
  have hd : (0 : ℝ) < 2 * Real.pi * (0.06 : ℝ) ^ 2 := by positivity
  have hdlt : 2 * Real.pi * (0.06 : ℝ) ^ 2 < 2 := by
    nlinarith [Real.pi_lt_d2]
  have hK : (1 : ℝ) / 2 < 1 / (2 * Real.pi * (0.06 : ℝ) ^ 2) :=
    one_div_lt_one_div_of_lt hd hdlt
  have hZpos : 0 < posterior_norm false 2 cv0 sims0 st8 := by
    rw [c8_Z2]
    positivity
  rw [inferGoals_one]
  show norm_posterior false 2 cv0 (fun g => sims0 (0 * 2 + g)) st8 0 ≠ 1 / 2
  rw [c8_hsl2, norm_posterior_of_ne hZpos.ne' 0,
    g_posterior_of_init c8_st8_init0 2 cv0 sims0, c8_st8_prior0,
    likelihood_sims0 0, mul_one, c8_Z2]
  have hgt : 1 / 2 < (1 / (2 * Real.pi * (0.06 : ℝ) ^ 2)) /
      (1 / (2 * Real.pi * (0.06 : ℝ) ^ 2) + 1 / 2) := by
    rw [lt_div_iff₀ (by positivity)]
    nlinarith [hK]
  exact ne_of_gt hgt

/-- Amended claim C8: the only reset mechanism in the code is the local
`reset_priors` flag of line 103 — when it is set, the returned belief is
exactly uniform 1/N regardless of prior history — but the source hardcodes
it to `false` (`reset_priors_code`), and a change of the hypothesis count
N triggers no reset at all: hypothesis indices initialized on earlier
ticks keep their accumulated stored priors (see
`n_change_no_reset_counterexample`). -/
theorem reset_gives_uniform (n : ℕ) (cv : Vector2) (s : ℕ → Vector2)
    (st : FilterState) (hn : 1 ≤ n) (g : ℕ) :
    (agentUpdate true n cv s st).1 g = 1 / (n : ℝ) := by
  have hP : ∀ j, g_posterior true n cv s st j = uniform_prior n := by
    intro j
    simp [g_posterior]
  have hn0 : ((n : ℝ)) ≠ 0 := by
    have h : (0 : ℝ) < (n : ℝ) := by exact_mod_cast hn
    exact h.ne'
  have hZ : posterior_norm true n cv s st = 1 := by
    simp only [posterior_norm, hP]
    rw [Finset.sum_const, Finset.card_range, nsmul_eq_mul, uniform_prior]
    field_simp
  rw [agentUpdate_fst, norm_posterior_of_ne (by rw [hZ]; norm_num) g, hZ,
    hP g, uniform_prior, div_one]

/-- Witness for the amended C8 at a concrete input. -/
theorem reset_gives_uniform_witness :
    (agentUpdate true 2 cv0 sims0 initState).1 0 = 1 / ((2 : ℕ) : ℝ) :=
  reset_gives_uniform 2 cv0 sims0 initState (by norm_num) 0

/-! Evaluation of a two-agent tick where the runs differ only in the slice
of agent 0 (N = 2, initialized state with priors 1/2). -/

theorem half_half_div (K : ℝ) (hK : 0 < K) :
    K * (1 / 2) / (K * (1 / 2) + K * (1 / 2)) = 1 / 2 := by
  rw [show K * (1 / 2) + K * (1 / 2) = K by ring, mul_comm, mul_div_assoc,
    div_self hK.ne', mul_one]

theorem c7_LA (g : ℕ) : likelihood cv0 (simsA g) =
    1 / (2 * Real.pi * (0.06 : ℝ) ^ 2) := by
  rw [likelihood_eval]
  norm_num [cv0, simsA]

theorem c7_LB0 : likelihood cv0 (simsB 0) =
    1 / (2 * Real.pi * (0.06 : ℝ) ^ 2) := by
  rw [show simsB 0 = (⟨0, 0⟩ : Vector2) from rfl, likelihood_eval]
  norm_num [cv0]

theorem c7_LB1 : likelihood cv0 (simsB 1) =
    1 / (2 * Real.pi * (0.06 : ℝ) ^ 2) * Real.exp (-(1250 / 9 : ℝ)) := by
  rw [show simsB 1 = (⟨1, 0⟩ : Vector2) from rfl, likelihood_eval]
  norm_num [cv0]

theorem c7_slAa : (fun g => simsA (0 * 2 + g)) = simsA := by
  funext g
  rfl

theorem c7_slAb : (fun g => simsA (1 * 2 + g)) = simsA := by
  funext g
  rfl

theorem c7_slB0 : (fun g => simsB (0 * 2 + g)) = simsB := by
  funext g
  simp

theorem c7_slB1 : (fun g => simsB (1 * 2 + g)) = simsA := by
  funext g
  unfold simsA simsB
  rw [if_neg (by omega)]

theorem c7_ZA : posterior_norm false 2 cv0 simsA st7 =
    1 / (2 * Real.pi * (0.06 : ℝ) ^ 2) * (1 / 2) +
    1 / (2 * Real.pi * (0.06 : ℝ) ^ 2) * (1 / 2) := by
  rw [posterior_norm, Finset.sum_range_succ, Finset.sum_range_one,
    g_posterior_of_init (show st7.init_liks 0 = true from rfl) 2 cv0 simsA,
    g_posterior_of_init (show st7.init_liks 1 = true from rfl) 2 cv0 simsA,
    c7_LA 0, c7_LA 1, show st7.prev_prior 0 = 1 / 2 from rfl,
    show st7.prev_prior 1 = 1 / 2 from rfl]

theorem c7_stA : (agentUpdate false 2 cv0 simsA st7).2 = st7 := by
  have hK : (0 : ℝ) < 1 / (2 * Real.pi * (0.06 : ℝ) ^ 2) := by positivity
  have hZ : posterior_norm false 2 cv0 simsA st7 ≠ 0 := by
    rw [c7_ZA]
    positivity
  ext g
  · show next_init 2 st7 g = st7.init_liks g
    unfold next_init
    split
    · rfl
    · rfl
  · show next_prior false 2 cv0 simsA st7 g = st7.prev_prior g
    by_cases hg : g < 2
    · rw [next_prior_of_ne hZ hg, norm_posterior_of_ne hZ g, c7_ZA,
        g_posterior_of_init (show st7.init_liks g = true from rfl)
          2 cv0 simsA,
        c7_LA g, show st7.prev_prior g = 1 / 2 from rfl,
        half_half_div _ hK, if_pos (by norm_num : (1 : ℝ) / 2 > 0.01)]
    · unfold next_prior
      rw [if_neg (fun hc => hg hc.1)]

theorem c7_belA : (agentUpdate false 2 cv0 simsA st7).1 0 = 1 / 2 := by
  have hK : (0 : ℝ) < 1 / (2 * Real.pi * (0.06 : ℝ) ^ 2) := by positivity
  have hZ : posterior_norm false 2 cv0 simsA st7 ≠ 0 := by
    rw [c7_ZA]
    positivity
  rw [agentUpdate_fst, norm_posterior_of_ne hZ 0, c7_ZA,
    g_posterior_of_init (show st7.init_liks 0 = true from rfl) 2 cv0 simsA,
    c7_LA 0, show st7.prev_prior 0 = 1 / 2 from rfl, half_half_div _ hK]

theorem c7_runA :
    ((inferGoals false 2 2 cv0 simsA st7).1.getD 1 (fun _ => 0)) 0
      = 1 / 2 := by
  rw [inferGoals_two]
  show (agentUpdate false 2 cv0 (fun g => simsA (1 * 2 + g))
    (agentUpdate false 2 cv0 (fun g => simsA (0 * 2 + g)) st7).2).1 0 = 1 / 2
  rw [c7_slAa, c7_slAb, c7_stA]
  exact c7_belA

theorem c7_ZB0 : posterior_norm false 2 cv0 simsB st7 =
    1 / (2 * Real.pi * (0.06 : ℝ) ^ 2) * (1 / 2) +
    1 / (2 * Real.pi * (0.06 : ℝ) ^ 2) * Real.exp (-(1250 / 9 : ℝ)) *
      (1 / 2) := by
  rw [posterior_norm, Finset.sum_range_succ, Finset.sum_range_one,
    g_posterior_of_init (show st7.init_liks 0 = true from rfl) 2 cv0 simsB,
    g_posterior_of_init (show st7.init_liks 1 = true from rfl) 2 cv0 simsB,
    c7_LB0, c7_LB1, show st7.prev_prior 0 = 1 / 2 from rfl,
    show st7.prev_prior 1 = 1 / 2 from rfl]

theorem c7_ZB0_ne : posterior_norm false 2 cv0 simsB st7 ≠ 0 := by
  rw [c7_ZB0]
  positivity

theorem c7_stB_init (g : ℕ) :
    (agentUpdate false 2 cv0 simsB st7).2.init_liks g = true := by
  rw [agentUpdate_init]
  unfold next_init
  split
  · rfl
  · rfl

theorem c7_stB_prior0 :
    (agentUpdate false 2 cv0 simsB st7).2.prev_prior 0 =
      1 / (2 * Real.pi * (0.06 : ℝ) ^ 2) * (1 / 2) /
        (1 / (2 * Real.pi * (0.06 : ℝ) ^ 2) * (1 / 2) +
         1 / (2 * Real.pi * (0.06 : ℝ) ^ 2) * Real.exp (-(1250 / 9 : ℝ)) *
           (1 / 2)) := by
  have hK : (0 : ℝ) < 1 / (2 * Real.pi * (0.06 : ℝ) ^ 2) := by positivity
  have hEp : (0 : ℝ) < Real.exp (-(1250 / 9 : ℝ)) := Real.exp_pos _
  have hE : Real.exp (-(1250 / 9 : ℝ)) < 0.01 :=
    exp_lt_hundredth (by norm_num)
  rw [agentUpdate_prior, next_prior_of_ne c7_ZB0_ne (by norm_num),
    norm_posterior_of_ne c7_ZB0_ne 0, c7_ZB0,
    g_posterior_of_init (show st7.init_liks 0 = true from rfl) 2 cv0 simsB,
    c7_LB0, show st7.prev_prior 0 = 1 / 2 from rfl]
  rw [if_pos]
  rw [gt_iff_lt, lt_div_iff₀ (by positivity)]
  nlinarith [mul_lt_mul_of_pos_left hE hK, hK, hEp]

theorem c7_stB_prior1 :
    (agentUpdate false 2 cv0 simsB st7).2.prev_prior 1 = 0.005 := by
  have hK : (0 : ℝ) < 1 / (2 * Real.pi * (0.06 : ℝ) ^ 2) := by positivity
  have hEp : (0 : ℝ) < Real.exp (-(1250 / 9 : ℝ)) := Real.exp_pos _
  have hE : Real.exp (-(1250 / 9 : ℝ)) < 0.01 :=
    exp_lt_hundredth (by norm_num)
  rw [agentUpdate_prior, next_prior_of_ne c7_ZB0_ne (by norm_num),
    norm_posterior_of_ne c7_ZB0_ne 1, c7_ZB0,
    g_posterior_of_init (show st7.init_liks 1 = true from rfl) 2 cv0 simsB,
    c7_LB1, show st7.prev_prior 1 = 1 / 2 from rfl]
  rw [if_neg]
  apply not_lt.mpr
  rw [div_le_iff₀ (by positivity)]
  nlinarith [mul_lt_mul_of_pos_left hE hK, hK, hEp]

theorem c7_runB :
    ((inferGoals false 2 2 cv0 simsB st7).1.getD 1 (fun _ => 0)) 0
      > 1 / 2 := by
  have hK : (0 : ℝ) < 1 / (2 * Real.pi * (0.06 : ℝ) ^ 2) := by positivity
  have hEp : (0 : ℝ) < Real.exp (-(1250 / 9 : ℝ)) := Real.exp_pos _
  have hE : Real.exp (-(1250 / 9 : ℝ)) < 0.01 :=
    exp_lt_hundredth (by norm_num)
  have hE1 : Real.exp (-(1250 / 9 : ℝ)) < 1 := lt_trans hE (by norm_num)
  rw [inferGoals_two]
  show (agentUpdate false 2 cv0 (fun g => simsB (1 * 2 + g))
    (agentUpdate false 2 cv0 (fun g => simsB (0 * 2 + g)) st7).2).1 0
      > 1 / 2
  rw [c7_slB0, c7_slB1]
  have hi0 := c7_stB_init 0
  have hi1 := c7_stB_init 1
  have hq := c7_stB_prior0
  have hq1 := c7_stB_prior1
  have hqbound : 1 / 2 <
      1 / (2 * Real.pi * (0.06 : ℝ) ^ 2) * (1 / 2) /
        (1 / (2 * Real.pi * (0.06 : ℝ) ^ 2) * (1 / 2) +
         1 / (2 * Real.pi * (0.06 : ℝ) ^ 2) * Real.exp (-(1250 / 9 : ℝ)) *
           (1 / 2)) := by
    rw [lt_div_iff₀ (by positivity)]
    nlinarith [mul_lt_mul_of_pos_left hE1 hK, hK, hEp]
  have hZ2 : posterior_norm false 2 cv0 simsA
      (agentUpdate false 2 cv0 simsB st7).2 =
      1 / (2 * Real.pi * (0.06 : ℝ) ^ 2) *
        (1 / (2 * Real.pi * (0.06 : ℝ) ^ 2) * (1 / 2) /
          (1 / (2 * Real.pi * (0.06 : ℝ) ^ 2) * (1 / 2) +
           1 / (2 * Real.pi * (0.06 : ℝ) ^ 2) *
             Real.exp (-(1250 / 9 : ℝ)) * (1 / 2))) +
      1 / (2 * Real.pi * (0.06 : ℝ) ^ 2) * 0.005 := by
    rw [posterior_norm, Finset.sum_range_succ, Finset.sum_range_one,
      g_posterior_of_init hi0 2 cv0 simsA,
      g_posterior_of_init hi1 2 cv0 simsA, c7_LA 0, c7_LA 1, hq, hq1]
  have hqpos : (0 : ℝ) <
      1 / (2 * Real.pi * (0.06 : ℝ) ^ 2) * (1 / 2) /
        (1 / (2 * Real.pi * (0.06 : ℝ) ^ 2) * (1 / 2) +
         1 / (2 * Real.pi * (0.06 : ℝ) ^ 2) * Real.exp (-(1250 / 9 : ℝ)) *
           (1 / 2)) := by positivity
  have hZ2pos : 0 < posterior_norm false 2 cv0 simsA
      (agentUpdate false 2 cv0 simsB st7).2 := by
    rw [hZ2]
    positivity
  rw [agentUpdate_fst, norm_posterior_of_ne hZ2pos.ne' 0,
    g_posterior_of_init hi0 2 cv0 simsA, c7_LA 0, hq, hZ2]
  rw [gt_iff_lt, lt_div_iff₀ (by positivity)]
  nlinarith [mul_lt_mul_of_pos_left hqbound hK, hK, hqpos]

/-- Counterexample to claim C7: the filter state is shared across agents,
not per-agent. Two runs of the same two-agent tick whose predicted
matrices agree on the whole slice of agent 1 (indices 2 and 3) — they
differ only at index 1, inside the slice of agent 0 — return different
beliefs for agent 1, because agent 0, processed first, overwrites the
shared `prev_prior_` that agent 1 then reads. -/
theorem cross_agent_interference_counterexample :
    simsA 2 = simsB 2 ∧ simsA 3 = simsB 3 ∧
    ((inferGoals false 2 2 cv0 simsA st7).1.getD 1 (fun _ => 0)) 0 ≠
      ((inferGoals false 2 2 cv0 simsB st7).1.getD 1 (fun _ => 0)) 0 := by
  refine ⟨rfl, rfl, ?_⟩
  rw [c7_runA]
  exact (ne_of_gt c7_runB).symm

/-- Amended claim C7: what does hold is that one agent-loop iteration is a
function only of the (shared) robot velocity, its own slice of the
predicted matrix, and the shared filter state as left by the previously
processed agents: two updates from equal states whose slices agree on the
first N entries return the same belief for every hypothesis and the same
updated state. Per-agent isolation fails because that state is shared (see
`cross_agent_interference_counterexample`) and because the observed
velocity used is the robot velocity for every agent (lines 105-107). -/
theorem agent_update_depends_only_on_slice (r : Bool) (n : ℕ)
    (cv : Vector2) (s s2 : ℕ → Vector2) (st : FilterState)
    (h : ∀ g < n, s g = s2 g) :
    (∀ g < n,
      (agentUpdate r n cv s st).1 g = (agentUpdate r n cv s2 st).1 g) ∧
    (agentUpdate r n cv s st).2 = (agentUpdate r n cv s2 st).2 := by
  have hP : ∀ g < n,
      g_posterior r n cv s st g = g_posterior r n cv s2 st g := by
    intro g hg
    unfold g_posterior
    rw [h g hg]
  have hZ : posterior_norm r n cv s st = posterior_norm r n cv s2 st :=
    Finset.sum_congr rfl fun g hg => hP g (Finset.mem_range.mp hg)
  have hNP : ∀ g < n,
      norm_posterior r n cv s st g = norm_posterior r n cv s2 st g := by
    intro g hg
    unfold norm_posterior
    rw [hZ, hP g hg]
  refine ⟨fun g hg => hNP g hg, ?_⟩
  ext g
  · rfl
  · show next_prior r n cv s st g = next_prior r n cv s2 st g
    unfold next_prior
    rw [hZ]
    by_cases hg : g < n
    · rw [hNP g hg]
    · simp only [hg, false_and, if_false]

/-- Witness for the amended C7 at a concrete input: `sims0` and `simsW`
agree on index 0 (the whole slice for one hypothesis). -/
theorem agent_update_depends_only_on_slice_witness :
    ((agentUpdate false 1 cv0 sims0 initState).1 0 =
      (agentUpdate false 1 cv0 simsW initState).1 0) ∧
    (agentUpdate false 1 cv0 sims0 initState).2 =
      (agentUpdate false 1 cv0 simsW initState).2 := by
  have h := agent_update_depends_only_on_slice false 1 cv0 sims0 simsW
    initState
    (by
      intro g hg
      have hg0 : g = 0 := by omega
      subst hg0
      rfl)
  exact ⟨h.1 0 (by norm_num), h.2⟩

/-! NaN-absorption lemmas for the `Option ℝ` model. -/

theorem nadd_none_left (o : Option ℝ) : nadd none o = none := by
  cases o <;> rfl

theorem nadd_none_right (o : Option ℝ) : nadd o none = none := by
  cases o <;> rfl

theorem nsub_none_left (o : Option ℝ) : nsub none o = none := by
  cases o <;> rfl

theorem nsub_none_right (o : Option ℝ) : nsub o none = none := by
  cases o <;> rfl

theorem nmul_none_left (o : Option ℝ) : nmul none o = none := by
  cases o <;> rfl

theorem nmul_none_right (o : Option ℝ) : nmul o none = none := by
  cases o <;> rfl

theorem ndiv_none_left (o : Option ℝ) : ndiv none o = none := by
  cases o <;> rfl

theorem nsq_none : nsq none = none := rfl

theorem nexp_none : nexp none = none := rfl

theorem likN_nan (uy x y : Option ℝ) : likelihoodN none uy x y = none := by
  simp only [likelihoodN, nsub_none_right, nsq_none, ndiv_none_left,
    nadd_none_left, nsub_none_left, nmul_none_left, nmul_none_right,
    nexp_none]

theorem foldl_nadd_none (liks priors : ℕ → Option ℝ) (l : List ℕ) :
    List.foldl (fun acc goal => nadd acc (nmul (liks goal) (priors goal)))
      none l = none := by
  induction l with
  | nil => rfl
  | cons a t ih =>
    rw [List.foldl_cons, nadd_none_left]
    exact ih

/-- Counterexample to claim C9: the code performs no input validation at
all. With a NaN observed x-component, the likelihood computed for a goal
with finite predicted velocity (1, 0) is NaN, and so is the accumulated
normalizer Z of a 3-goal initialized tick — the non-finite value is
propagated into the likelihoods and into Z, not rejected before the
likelihood computation. -/
theorem nan_propagates_counterexample :
    likelihoodN none (some 0) (some 1) (some 0) = none ∧
    posterior_normN 3 (fun _ => likelihoodN none (some 0) (some 1) (some 0))
      (fun _ => some (1 / 3)) = none := by
  refine ⟨likN_nan _ _ _, ?_⟩
  rw [posterior_normN, show List.range 3 = [0, 1, 2] from rfl]
  simp only [List.foldl_cons, List.foldl_nil, likN_nan, nmul_none_left,
    nadd_none_right]

/-- Amended claim C9: `inferGoals` has no validation step and no error
path; a NaN component of the observed velocity propagates through the
likelihood of every hypothesis (whatever the predicted velocities and the
other components are) and into the accumulated normalizer Z of any tick
with at least one hypothesis. The `Z == 0` degenerate guard of line 168 is
thereby silently invalidated, exactly as the spec warns. -/
theorem nan_propagation :
    (∀ uy x y : Option ℝ, likelihoodN none uy x y = none) ∧
    (∀ (n : ℕ) (uy : Option ℝ) (obs : ℕ → Option ℝ × Option ℝ)
        (priors : ℕ → Option ℝ),
      posterior_normN (n + 1)
        (fun g => likelihoodN none uy (obs g).1 (obs g).2) priors
        = none) := by
  refine ⟨likN_nan, fun n uy obs priors => ?_⟩
  rw [posterior_normN, List.range_succ_eq_map, List.foldl_cons]
  rw [show nadd (some 0)
      (nmul (likelihoodN none uy (obs 0).1 (obs 0).2) (priors 0))
        = none by rw [likN_nan, nmul_none_left, nadd_none_right]]
  exact foldl_nadd_none _ _ _

/-! Access-bounds analysis. -/

/-- Claim C10: with at least one agent, every vector access of one
inference tick is in bounds exactly when the hypothesis count is 3: the
state vectors `init_liks_` and `prev_prior_` are fixed at length 3 by
`init`, so the per-goal loops over-run them whenever N > 3, and the
end-of-tick readout of line 183 always touches posterior indices 0, 1, 2,
over-running the length-N vectors whenever N < 3. -/
theorem accesses_in_bounds_iff_three (numAgents n : ℕ)
    (h : 1 ≤ numAgents) :
    (∀ a ∈ tickAccesses numAgents n, a.1 < a.2) ↔ n = 3 := by
  have hmem0 : ∀ p ∈ agentAccesses numAgents n 0,
      p ∈ tickAccesses numAgents n := by
    intro p hp
    exact List.mem_flatMap.mpr ⟨0, List.mem_range.mpr (by omega), hp⟩
  constructor
  · intro hb
    have h2n : (2 : ℕ) < n := by
      have hm : ((2 : ℕ), n) ∈ agentAccesses numAgents n 0 := by
        unfold agentAccesses
        simp
      exact hb _ (hmem0 _ hm)
    have h3 : ¬ 3 < n := by
      intro hgt
      have hm : ((3 : ℕ), (3 : ℕ)) ∈ agentAccesses numAgents n 0 := by
        unfold agentAccesses
        refine List.mem_append.mpr (Or.inl ?_)
        refine List.mem_append.mpr (Or.inl ?_)
        refine List.mem_append.mpr (Or.inr ?_)
        refine List.mem_flatMap.mpr ⟨3, List.mem_range.mpr hgt, ?_⟩
        simp
      have := hb _ (hmem0 _ hm)
      omega
    omega
  · intro hn a ha
    subst hn
    unfold tickAccesses agentAccesses at ha
    simp only [List.mem_flatMap, List.mem_append, List.mem_map,
      List.mem_range, List.mem_cons, List.not_mem_nil, or_false] at ha
    obtain ⟨agent, hag, hcase⟩ := ha
    rcases hcase with (((⟨g, hg, rfl⟩ | ⟨g, hg, hh⟩) | ⟨g, hg, hh⟩) |
      ⟨g, hg, hh⟩) | hh
    · show agent * 3 + g < numAgents * 3
      omega
    · rcases hh with rfl | rfl
      all_goals
        show g < 3
        omega
    · rcases hh with rfl | rfl | rfl
      all_goals
        show g < 3
        omega
    · rcases hh with rfl | rfl | rfl
      all_goals
        show g < 3
        omega
    · rcases hh with rfl | rfl | rfl
      all_goals decide

/-- Witness for C10 at a concrete input: one agent, three hypotheses. -/
theorem accesses_in_bounds_iff_three_witness :
    (∀ a ∈ tickAccesses 1 3, a.1 < a.2) ↔ 3 = 3 :=
  accesses_in_bounds_iff_three 1 3 (by norm_num)

end

end ICRIN
